import Mathlib

/-
  Verification development for the NLP core of the notion-ai-assistant
  repository (src/nlp/processor.ts, src/nlp/commands.ts, src/nlp/index.ts).
  JavaScript values are modelled shallowly: strings as Lean String, objects
  as structures with Option fields for possibly-undefined properties,
  exceptions as Except String, the external OpenAI classifier and the
  backing-store client as function-valued parameters, and the effectful
  calls the core makes are recorded as an explicit event trace.
-/

namespace NotionNLP

/-- Whitespace characters matched by the JavaScript regex whitespace class
in the title-stripping regexes (common cases: space, tab, CR, LF). -/
def wsChar (c : Char) : Bool :=
  c = ' ' || c = '\t' || c = '\n' || c = '\r'

/-- JavaScript `String.prototype.includes` for a non-empty needle. -/
def includes (s sub : String) : Bool :=
  (s.splitOn sub).length > 1

/-- JavaScript `String.prototype.trim` (restricted to `wsChar`). -/
def trimWs (l : List Char) : List Char :=
  ((l.dropWhile wsChar).reverse.dropWhile wsChar).reverse

/-- Case-insensitive prefix match: `w` is a lowercase word; returns the
remainder of `s` after the matched prefix. -/
def matchPrefixCI (w : List Char) (s : List Char) : Option (List Char) :=
  match w, s with
  | [], rest => some rest
  | _ :: _, [] => none
  | c :: ws, d :: ds => if d.toLower = c then matchPrefixCI ws ds else none

/-- One alternative of the leading-verb regex `^(criar|adicionar|nova?|novo)\s+`:
the word must be followed by at least one whitespace character, which is
consumed greedily; on failure the next alternative is tried. -/
def stripLeadVerbAux : List (List Char) → List Char → List Char
  | [], s => s
  | w :: ws, s =>
    match matchPrefixCI w s with
    | some rest =>
      match rest with
      | c :: _ => if wsChar c then rest.dropWhile wsChar else stripLeadVerbAux ws s
      | [] => stripLeadVerbAux ws s
    | none => stripLeadVerbAux ws s

/-- JavaScript `input.replace(/^(criar|adicionar|nova?|novo)\s+/i, '')`;
the alternatives are tried in regex order (`nova?` tries "nova" then "nov"). -/
def stripLeadVerb (s : List Char) : List Char :=
  stripLeadVerbAux
    ["criar".data, "adicionar".data, "nova".data, "nov".data, "novo".data] s

/-- Matches one reversed noun at the head of the reversed string,
case-insensitively. -/
def matchNounRev (r1 : List Char) : Option (List Char) :=
  match matchPrefixCI "tarefa".data.reverse r1 with
  | some rest => some rest
  | none =>
    match matchPrefixCI "nota".data.reverse r1 with
    | some rest => some rest
    | none => matchPrefixCI "projeto".data.reverse r1

/-- JavaScript `.replace(/\s+(tarefa|nota|projeto)\s*$/i, '')`: any match of
this anchored regex removes the final type noun together with the whitespace
run before it and any trailing whitespace after it. -/
def stripTrailNoun (s : List Char) : List Char :=
  let r := s.reverse
  let r1 := r.dropWhile wsChar
  match matchNounRev r1 with
  | some r2 =>
    match r2 with
    | c :: _ => if wsChar c then (r2.dropWhile wsChar).reverse else s
    | [] => s
  | none => s

/-- `NLPProcessor.extractTitleFromInput` (processor.ts:334): strips leading
command verbs and trailing type nouns, trims, and falls back to the fixed
default "Nova tarefa" when the result is empty. -/
def extractTitleFromInput (input : String) : String :=
  let cleanInput := String.mk (trimWs (stripTrailNoun (stripLeadVerb input.data)))
  if cleanInput = "" then "Nova tarefa" else cleanInput

/-- JavaScript truthiness of a possibly-undefined string (`undefined` and the
empty string are falsy). -/
def truthy : Option String → Bool
  | none => false
  | some s => if s = "" then false else true

/-- JavaScript `o || d` where `o` is a possibly-undefined string and `d` a
string default. -/
def jsOr (o : Option String) (d : String) : String :=
  match o with
  | some s => if s = "" then d else s
  | none => d

/-- JavaScript `a || b` on two possibly-undefined strings, keeping the result
possibly undefined. -/
def jsOrOpt (a b : Option String) : Option String :=
  if truthy a then a else b

/-- JavaScript `o || d` for a possibly-undefined number (0 is falsy). -/
def jsOrNat (o : Option Nat) (d : Nat) : Nat :=
  match o with
  | some n => if n = 0 then d else n
  | none => d

/-- `NLPProcessor.normalizePriority` (processor.ts:347). -/
def normalizePriority : Option String → Option String
  | none => none
  | some p =>
    if p = "" then none
    else
      let l := p.toLower
      if includes l "alta" || includes l "high" || includes l "urgente" then some "Alta"
      else if includes l "baixa" || includes l "low" then some "Baixa"
      else some "Média"

/-- `NLPProcessor.parseDate` (processor.ts:359). Dates are modelled as day
numbers; `now` is the current day and `dateParse` models the JavaScript
`new Date(string)` constructor for the direct-parse fallback. -/
def parseDate (dateParse : String → Option Nat) (now : Nat) :
    Option String → Option Nat
  | none => none
  | some t =>
    if t = "" then none
    else
      let text := t.toLower
      if includes text "hoje" then some now
      else if includes text "amanhã" then some (now + 1)
      else if includes text "semana" then some (now + 7)
      else dateParse t

/-- Domain entity for a task (relevant fields of the Task type). -/
structure Task where
  id : String
  title : String
  status : String := ""
  priority : String := ""
deriving DecidableEq

/-- Domain entity for a note. -/
structure Note where
  title : String
  tags : List String := []
deriving DecidableEq

/-- Domain entity for a project. -/
structure Project where
  name : String
deriving DecidableEq

/-- Dashboard summary returned by the backing store. -/
structure Summary where
  tasksTodo : Nat := 0
  tasksInProgress : Nat := 0
  tasksCompleted : Nat := 0
  notesTotal : Nat := 0
  projectsActive : Nat := 0
  tasksCompletedToday : Nat := 0
deriving DecidableEq

/-- Productivity statistics returned by the backing store. -/
structure ProductivityStats where
  tasksCompleted : Nat := 0
  notesCreated : Nat := 0
  averageCompletionTime : String := ""
  completionRate : Nat := 0
  currentStreak : Nat := 0
deriving DecidableEq

/-- Entity map produced by the classifier (processor.ts entity vocabulary);
each field is a possibly-absent value. -/
structure Entities where
  title : Option String := none
  description : Option String := none
  priority : Option String := none
  due_date : Option String := none
  tags : Option (List String) := none
  status : Option String := none
  project_name : Option String := none
  search_query : Option String := none
  task_id : Option String := none
  limit : Option Nat := none
  period : Option String := none
deriving DecidableEq

/-- Parsed classifier analysis (the JSON object `analyzeIntent` expects). -/
structure Analysis where
  intent : String
  entities : Entities := {}
  confidence : Rat := 0
  response : Option String := none
deriving DecidableEq

/-- One entry of the per-session conversation history. -/
structure HistoryEntry where
  input : String
  output : String
  timestamp : Nat := 0
deriving DecidableEq

/-- `ConversationContext` (processor.ts:20). -/
structure ConversationContext where
  sessionId : String
  history : List HistoryEntry := []
  currentTask : Option Task := none
  currentProject : Option Project := none
deriving DecidableEq

/-- `AICommand` as built by `extractCommand`. -/
structure AICommand where
  type : String
  target : String
  action : String
deriving DecidableEq

/-- The nested `updates` object built for the `update_task` intent. -/
structure Updates where
  title : Option String := none
  description : Option String := none
  priority : Option String := none
  status : Option String := none
  dueDate : Option Nat := none
deriving DecidableEq

/-- Union of the parameter fields `extractCommand` can set; each concrete
command populates a subset, the rest stay absent (undefined). -/
structure Parameters where
  title : Option String := none
  description : Option String := none
  priority : Option String := none
  dueDate : Option Nat := none
  tags : Option (List String) := none
  taskId : Option String := none
  updates : Option Updates := none
  status : Option String := none
  project : Option String := none
  limit : Option Nat := none
  content : Option String := none
  query : Option String := none
  name : Option String := none
  period : Option String := none
deriving DecidableEq

/-- `NLPResult` (processor.ts:8). -/
structure NLPResult where
  intent : String
  entities : Entities := {}
  confidence : Rat := 0
  command : Option AICommand := none
  parameters : Option Parameters := none
  response : Option String := none
deriving DecidableEq

/-- Result of `extractCommand`: a command and parameters, both absent for
the conversation / help / unrecognized intents. -/
structure ExtractedCommand where
  command : Option AICommand := none
  parameters : Option Parameters := none
deriving DecidableEq

/-- `NLPProcessor.extractCommand` (processor.ts:163): deterministic mapping
from (raw input, analysis) to a typed command plus normalized parameters. -/
def extractCommand (dateParse : String → Option Nat) (now : Nat)
    (input : String) (a : Analysis) : ExtractedCommand :=
  let e := a.entities
  match a.intent with
  | "create_task" =>
    { command := some { type := "create", target := "task", action := "create_task" }
      parameters := some
        { title := some (jsOr e.title (extractTitleFromInput input))
          description := e.description
          priority := normalizePriority e.priority
          dueDate := parseDate dateParse now e.due_date
          tags := some (e.tags.getD []) } }
  | "update_task" =>
    { command := some { type := "update", target := "task", action := "update_task" }
      parameters := some
        { taskId := e.task_id
          updates := some
            { title := e.title
              description := e.description
              priority := normalizePriority e.priority
              status := e.status
              dueDate := parseDate dateParse now e.due_date } } }
  | "complete_task" =>
    { command := some { type := "update", target := "task", action := "complete_task" }
      parameters := some { taskId := e.task_id, title := e.title } }
  | "list_tasks" =>
    { command := some { type := "read", target := "task", action := "list_tasks" }
      parameters := some
        { status := e.status
          priority := normalizePriority e.priority
          project := e.project_name
          limit := some (jsOrNat e.limit 10) } }
  | "create_note" =>
    { command := some { type := "create", target := "note", action := "create_note" }
      parameters := some
        { title := some (jsOr e.title (extractTitleFromInput input))
          content := some (jsOr e.description input)
          tags := some (e.tags.getD []) } }
  | "search_notes" =>
    { command := some { type := "read", target := "note", action := "search_notes" }
      parameters := some
        { query := some (jsOr e.search_query input)
          tags := e.tags } }
  | "create_project" =>
    { command := some { type := "create", target := "project", action := "create_project" }
      parameters := some
        { name := jsOrOpt e.title e.project_name
          description := e.description
          status := some "Ativo" } }
  | "dashboard" =>
    { command := some { type := "read", target := "dashboard", action := "get_summary" }
      parameters := some {} }
  | "analytics" =>
    { command := some { type := "read", target := "analytics", action := "get_stats" }
      parameters := some { period := some (jsOr e.period "week") } }
  | _ => { command := none, parameters := none }

/-- Data passed to the backing-store `createTask` call (commands.ts:89). -/
structure TaskData where
  title : String
  description : Option String := none
  priority : String
  status : String
  dueDate : Option Nat := none
  tags : List String := []
deriving DecidableEq

/-- Filter object passed to the backing-store `searchTasks` call; absent
fields model keys deleted or never set on the JavaScript object. -/
structure TaskFilter where
  title : Option String := none
  status : Option String := none
  priority : Option String := none
  project : Option String := none
deriving DecidableEq

/-- Data passed to the backing-store `createNote` call (commands.ts:254). -/
structure NoteData where
  title : String
  content : String
  tags : List String := []
deriving DecidableEq

/-- Filter object passed to the backing-store `searchNotes` call. -/
structure NoteFilter where
  query : Option String := none
  tags : Option (List String) := none
deriving DecidableEq

/-- Data passed to the backing-store `createProject` call (commands.ts:319). -/
structure ProjectData where
  name : String
  description : Option String := none
  status : String
deriving DecidableEq

/-- One backing-store call made by the executor, with its arguments. -/
inductive StoreCall where
  | createTaskCall (d : TaskData)
  | updateTaskCall (id : String) (u : Option Updates)
  | completeTaskCall (id : String)
  | searchTasksCall (f : TaskFilter)
  | createNoteCall (d : NoteData)
  | searchNotesCall (f : NoteFilter)
  | createProjectCall (d : ProjectData)
  | dashboardCall
  | statsCall (period : String)
deriving DecidableEq

/-- Observable effect of one request: a classifier invocation or a
backing-store call. -/
inductive Event where
  | classifyCall (input : String)
  | store (c : StoreCall)
deriving DecidableEq

/-- The backing-store client (`NotionServices`): every operation is
asynchronous and may throw, modelled as `Except String`. -/
structure NotionStore where
  createTask : TaskData → Except String Task
  updateTask : String → Option Updates → Except String Task
  completeTask : String → Except String Task
  searchTasks : TaskFilter → Except String (List Task)
  createNote : NoteData → Except String Note
  searchNotes : NoteFilter → Except String (List Note)
  createProject : ProjectData → Except String Project
  getDashboardSummary : Unit → Except String Summary
  getProductivityStats : String → Except String ProductivityStats

/-- `CommandResult` (commands.ts:8). -/
inductive ResultData where
  | task (t : Task)
  | tasks (ts : List Task)
  | note (n : Note)
  | notes (ns : List Note)
  | project (p : Project)
  | summary (s : Summary)
  | stats (s : ProductivityStats)
deriving DecidableEq

/-- Result envelope of executing a command (commands.ts:8). -/
structure CommandResult where
  success : Bool
  message : String
  data : Option ResultData := none
  error : Option String := none
deriving DecidableEq

namespace CommandExecutor

/-- The task payload built inside `CommandExecutor.createTask`
(commands.ts:89-96): caller defaults for title, priority, status, tags. -/
def taskDataOf (p : Parameters) : TaskData :=
  { title := jsOr p.title "Nova tarefa"
    description := p.description
    priority := jsOr p.priority "Média"
    status := "A fazer"
    dueDate := p.dueDate
    tags := p.tags.getD [] }

/-- `CommandExecutor.createTask` (commands.ts:87). -/
def createTask (store : NotionStore) (p : Parameters) :
    CommandResult × List Event :=
  let taskData := taskDataOf p
  match store.createTask taskData with
  | .ok task =>
    ({ success := true
       message := "✅ Tarefa \"" ++ task.title ++ "\" criada com sucesso!"
       data := some (.task task) }, [.store (.createTaskCall taskData)])
  | .error e =>
    ({ success := false
       message := "Não foi possível criar a tarefa."
       error := some e }, [.store (.createTaskCall taskData)])

/-- Shared tail of `CommandExecutor.updateTask`: the backing-store update
once a task id has been resolved (commands.ts:141-153). -/
def doUpdateTask (store : NotionStore) (taskId : String) (u : Option Updates)
    (evs : List Event) : CommandResult × List Event :=
  let evs2 := evs ++ [Event.store (.updateTaskCall taskId u)]
  match store.updateTask taskId u with
  | .ok task =>
    ({ success := true
       message := "✅ Tarefa \"" ++ task.title ++ "\" atualizada com sucesso!"
       data := some (.task task) }, evs2)
  | .error e =>
    ({ success := false
       message := "Não foi possível atualizar a tarefa."
       error := some e }, evs2)

/-- `CommandExecutor.updateTask` (commands.ts:117): requires an id or a
title, resolves a missing id by a title search, uses the first match. -/
def updateTask (store : NotionStore) (p : Parameters) :
    CommandResult × List Event :=
  if (!truthy p.taskId) && (!truthy p.title) then
    ({ success := false
       message := "É necessário especificar qual tarefa atualizar."
       error := some "ID ou título da tarefa não fornecido" }, [])
  else if truthy p.taskId then
    doUpdateTask store (p.taskId.getD "") p.updates []
  else
    let t := p.title.getD ""
    let filter : TaskFilter := { title := some t }
    let ev := Event.store (.searchTasksCall filter)
    match store.searchTasks filter with
    | .error e =>
      ({ success := false
         message := "Não foi possível atualizar a tarefa."
         error := some e }, [ev])
    | .ok [] =>
      ({ success := false
         message := "Tarefa \"" ++ t ++ "\" não encontrada."
         error := some "Tarefa não encontrada" }, [ev])
    | .ok (t0 :: _) => doUpdateTask store t0.id p.updates [ev]

/-- Shared tail of `CommandExecutor.completeTask`: the backing-store
completion once a task id has been resolved (commands.ts:184-196). -/
def doCompleteTask (store : NotionStore) (taskId : String)
    (evs : List Event) : CommandResult × List Event :=
  let evs2 := evs ++ [Event.store (.completeTaskCall taskId)]
  match store.completeTask taskId with
  | .ok task =>
    ({ success := true
       message := "🎉 Tarefa \"" ++ task.title ++ "\" marcada como concluída!"
       data := some (.task task) }, evs2)
  | .error e =>
    ({ success := false
       message := "Não foi possível completar a tarefa."
       error := some e }, evs2)

/-- `CommandExecutor.completeTask` (commands.ts:160). -/
def completeTask (store : NotionStore) (p : Parameters) :
    CommandResult × List Event :=
  if (!truthy p.taskId) && (!truthy p.title) then
    ({ success := false
       message := "É necessário especificar qual tarefa completar."
       error := some "ID ou título da tarefa não fornecido" }, [])
  else if truthy p.taskId then
    doCompleteTask store (p.taskId.getD "") []
  else
    let t := p.title.getD ""
    let filter : TaskFilter := { title := some t }
    let ev := Event.store (.searchTasksCall filter)
    match store.searchTasks filter with
    | .error e =>
      ({ success := false
         message := "Não foi possível completar a tarefa."
         error := some e }, [ev])
    | .ok [] =>
      ({ success := false
         message := "Tarefa \"" ++ t ++ "\" não encontrada."
         error := some "Tarefa não encontrada" }, [ev])
    | .ok (t0 :: _) => doCompleteTask store t0.id [ev]

/-- One line of the numbered task list (commands.ts:231-233). -/
def taskLine (i : Nat) (t : Task) : String :=
  toString (i + 1) ++ ". " ++ t.title ++ " (" ++ t.status ++ ") - " ++ t.priority

/-- `CommandExecutor.listTasks` (commands.ts:203): empty filters are
removed, results are capped and rendered as a numbered summary. -/
def listTasks (store : NotionStore) (p : Parameters) :
    CommandResult × List Event :=
  let filters : TaskFilter :=
    { status := if truthy p.status then p.status else none
      priority := if truthy p.priority then p.priority else none
      project := if truthy p.project then p.project else none }
  let ev := Event.store (.searchTasksCall filters)
  match store.searchTasks filters with
  | .error e =>
    ({ success := false
       message := "Não foi possível listar as tarefas."
       error := some e }, [ev])
  | .ok tasks =>
    if tasks.length = 0 then
      ({ success := true
         message := "Nenhuma tarefa encontrada com os filtros especificados."
         data := some (.tasks []) }, [ev])
    else
      let limitedTasks := tasks.take (jsOrNat p.limit 10)
      let taskList := String.intercalate "\n"
        (limitedTasks.enum.map (fun q => taskLine q.1 q.2))
      ({ success := true
         message := "📋 Encontrei " ++ toString tasks.length ++ " tarefa(s):\n\n" ++ taskList
         data := some (.tasks limitedTasks) }, [ev])

/-- The note payload built inside `CommandExecutor.createNote`
(commands.ts:254-258). -/
def noteDataOf (p : Parameters) : NoteData :=
  { title := jsOr p.title "Nova nota"
    content := jsOr p.content ""
    tags := p.tags.getD [] }

/-- `CommandExecutor.createNote` (commands.ts:252). -/
def createNote (store : NotionStore) (p : Parameters) :
    CommandResult × List Event :=
  let noteData := noteDataOf p
  match store.createNote noteData with
  | .ok note =>
    ({ success := true
       message := "📝 Nota \"" ++ note.title ++ "\" criada com sucesso!"
       data := some (.note note) }, [.store (.createNoteCall noteData)])
  | .error e =>
    ({ success := false
       message := "Não foi possível criar a nota."
       error := some e }, [.store (.createNoteCall noteData)])

/-- One line of the numbered note list (commands.ts:296-298). -/
def noteLine (i : Nat) (n : Note) : String :=
  toString (i + 1) ++ ". " ++ n.title ++
    (if n.tags.length > 0 then " [" ++ String.intercalate ", " n.tags ++ "]" else "")

/-- `CommandExecutor.searchNotes` (commands.ts:279). -/
def searchNotes (store : NotionStore) (p : Parameters) :
    CommandResult × List Event :=
  let filters : NoteFilter := { query := p.query, tags := p.tags }
  let ev := Event.store (.searchNotesCall filters)
  match store.searchNotes filters with
  | .error e =>
    ({ success := false
       message := "Não foi possível buscar as notas."
       error := some e }, [ev])
  | .ok notes =>
    if notes.length = 0 then
      ({ success := true
         message := "Nenhuma nota encontrada com os critérios especificados."
         data := some (.notes []) }, [ev])
    else
      let noteList := String.intercalate "\n"
        ((notes.take 10).enum.map (fun q => noteLine q.1 q.2))
      ({ success := true
         message := "📚 Encontrei " ++ toString notes.length ++ " nota(s):\n\n" ++ noteList
         data := some (.notes notes) }, [ev])

/-- The project payload built inside `CommandExecutor.createProject`
(commands.ts:319-323). -/
def projectDataOf (p : Parameters) : ProjectData :=
  { name := jsOr p.name "Novo projeto"
    description := p.description
    status := jsOr p.status "Ativo" }

/-- `CommandExecutor.createProject` (commands.ts:317). -/
def createProject (store : NotionStore) (p : Parameters) :
    CommandResult × List Event :=
  let projectData := projectDataOf p
  match store.createProject projectData with
  | .ok project =>
    ({ success := true
       message := "🚀 Projeto \"" ++ project.name ++ "\" criado com sucesso!"
       data := some (.project project) }, [.store (.createProjectCall projectData)])
  | .error e =>
    ({ success := false
       message := "Não foi possível criar o projeto."
       error := some e }, [.store (.createProjectCall projectData)])

/-- The dashboard message template (commands.ts:348-355). -/
def dashboardMessage (s : Summary) : String :=
  "📊 **Dashboard - Resumo**\n\n" ++
  "📋 **Tarefas:**\n" ++
  "• A fazer: " ++ toString s.tasksTodo ++ "\n" ++
  "• Em progresso: " ++ toString s.tasksInProgress ++ "\n" ++
  "• Concluídas: " ++ toString s.tasksCompleted ++ "\n\n" ++
  "📝 **Notas:** " ++ toString s.notesTotal ++ "\n" ++
  "🚀 **Projetos ativos:** " ++ toString s.projectsActive ++ "\n\n" ++
  "⚡ **Produtividade hoje:** " ++ toString s.tasksCompletedToday ++ " tarefas concluídas"

/-- `CommandExecutor.getDashboard` (commands.ts:344). -/
def getDashboard (store : NotionStore) : CommandResult × List Event :=
  let ev := Event.store .dashboardCall
  match store.getDashboardSummary () with
  | .error e =>
    ({ success := false
       message := "Não foi possível obter o dashboard."
       error := some e }, [ev])
  | .ok summary =>
    ({ success := true
       message := dashboardMessage summary
       data := some (.summary summary) }, [ev])

/-- The analytics message template (commands.ts:379-384). -/
def analyticsMessage (period : String) (s : ProductivityStats) : String :=
  "📈 **Estatísticas (" ++ period ++ ")**\n\n" ++
  "✅ **Tarefas concluídas:** " ++ toString s.tasksCompleted ++ "\n" ++
  "📝 **Notas criadas:** " ++ toString s.notesCreated ++ "\n" ++
  "⏱️ **Tempo médio por tarefa:** " ++ s.averageCompletionTime ++ "\n" ++
  "🎯 **Taxa de conclusão:** " ++ toString s.completionRate ++ "%\n" ++
  "🔥 **Sequência atual:** " ++ toString s.currentStreak ++ " dias"

/-- `CommandExecutor.getAnalytics` (commands.ts:374). -/
def getAnalytics (store : NotionStore) (p : Parameters) :
    CommandResult × List Event :=
  let period := jsOr p.period "week"
  let ev := Event.store (.statsCall period)
  match store.getProductivityStats period with
  | .error e =>
    ({ success := false
       message := "Não foi possível obter as estatísticas."
       error := some e }, [ev])
  | .ok stats =>
    ({ success := true
       message := analyticsMessage period stats
       data := some (.stats stats) }, [ev])

/-- Result of a route whose parameters object is undefined: the property
access inside the route throws a TypeError, which the route's own catch
converts into its generic failure message. -/
def undefinedParams (msg : String) : CommandResult :=
  { success := false
    message := msg
    error := some "Cannot read properties of undefined" }

/-- `CommandExecutor.executeCommand` (commands.ts:28): dispatches on the
command action; without a command it relays the classifier reply. -/
def executeCommand (store : NotionStore) (r : NLPResult) :
    CommandResult × List Event :=
  match r.command with
  | none =>
    ({ success := true, message := jsOr r.response "Como posso ajudar você?" }, [])
  | some command =>
    match command.action, r.parameters with
    | "create_task", some p => createTask store p
    | "create_task", none => (undefinedParams "Não foi possível criar a tarefa.", [])
    | "update_task", some p => updateTask store p
    | "update_task", none => (undefinedParams "Não foi possível atualizar a tarefa.", [])
    | "complete_task", some p => completeTask store p
    | "complete_task", none => (undefinedParams "Não foi possível completar a tarefa.", [])
    | "list_tasks", some p => listTasks store p
    | "list_tasks", none => (undefinedParams "Não foi possível listar as tarefas.", [])
    | "create_note", some p => createNote store p
    | "create_note", none => (undefinedParams "Não foi possível criar a nota.", [])
    | "search_notes", some p => searchNotes store p
    | "search_notes", none => (undefinedParams "Não foi possível buscar as notas.", [])
    | "create_project", some p => createProject store p
    | "create_project", none => (undefinedParams "Não foi possível criar o projeto.", [])
    | "get_summary", _ => getDashboard store
    | "get_stats", some p => getAnalytics store p
    | "get_stats", none => (undefinedParams "Não foi possível obter as estatísticas.", [])
    | _, _ =>
      ({ success := false
         message := "Comando não reconhecido."
         error := some ("Ação \x27" ++ command.action ++ "\x27 não implementada") }, [])

end CommandExecutor

/-- The processor session map (`Map<string, ConversationContext>`),
modelled as an association list in insertion order without duplicate keys. -/
abbrev CtxMap := List (String × ConversationContext)

/-- `Map.get` on the session map. -/
def mapGet (m : CtxMap) (sid : String) : Option ConversationContext :=
  match m with
  | [] => none
  | p :: rest => if p.1 = sid then some p.2 else mapGet rest sid

/-- `Map.set` on the session map: replaces the entry in place if the key
exists, otherwise appends in insertion order. -/
def mapSet (m : CtxMap) (sid : String) (c : ConversationContext) : CtxMap :=
  match m with
  | [] => [(sid, c)]
  | p :: rest => if p.1 = sid then (sid, c) :: rest else p :: mapSet rest sid c

/-- `Map.delete` on the session map. -/
def mapDelete (m : CtxMap) (sid : String) : CtxMap :=
  match m with
  | [] => []
  | p :: rest => if p.1 = sid then mapDelete rest sid else p :: mapDelete rest sid

/-- `NLPProcessor.getOrCreateContext` (processor.ts:304): returns the
stored context, creating an empty one on first use of the session. -/
def getOrCreateContext (m : CtxMap) (sid : String) :
    ConversationContext × CtxMap :=
  match mapGet m sid with
  | some c => (c, m)
  | none =>
    let c : ConversationContext := { sessionId := sid, history := [] }
    (c, mapSet m sid c)

/-- The history push plus bound of `updateContext` (processor.ts:319-328):
append one entry, then keep only the last 10 entries. -/
def pushBounded (h : List HistoryEntry) (e : HistoryEntry) : List HistoryEntry :=
  let h2 := h ++ [e]
  if h2.length > 10 then h2.drop (h2.length - 10) else h2

/-- `NLPProcessor.updateContext` (processor.ts:317). -/
def updateContext (m : CtxMap) (sid input output : String) (now : Nat) : CtxMap :=
  match getOrCreateContext m sid with
  | (c, m1) =>
    mapSet m1 sid { c with history := pushBounded c.history ⟨input, output, now⟩ }

/-- `NLPProcessor.clearContext` (processor.ts:384). -/
def clearContext (m : CtxMap) (sid : String) : CtxMap :=
  mapDelete m sid

/-- Statistics returned by `NLPProcessor.getStats`. -/
structure ProcessorStats where
  activeSessions : Nat
  totalInteractions : Nat
deriving DecidableEq

/-- `NLPProcessor.getStats` (processor.ts:391). -/
def getStats (m : CtxMap) : ProcessorStats :=
  { activeSessions := m.length
    totalInteractions := (m.map (fun p => p.2.history.length)).sum }

/-- The external collaborators of the processor: the OpenAI chat call
(which may throw a transport error, or return no content), the JSON parser
applied to its text, and the JavaScript `new Date(string)` parser. -/
structure Env where
  classify : String → ConversationContext → Except String (Option String)
  parseJson : String → Option Analysis
  dateParse : String → Option Nat

/-- The fail-soft analysis `analyzeIntent` substitutes when the classifier
response is not parseable JSON (processor.ts:151-156). -/
def fallbackAnalysis : Analysis :=
  { intent := "conversation"
    entities := {}
    confidence := 1/2
    response := some "Entendi sua mensagem, mas preciso de mais clareza para ajudar melhor." }

/-- `NLPProcessor.analyzeIntent` (processor.ts:84): calls the classifier,
throws on a transport error or an empty completion, and falls back softly
on unparseable output. The classifier invocation is recorded as an event. -/
def analyzeIntent (env : Env) (input : String) (ctx : ConversationContext) :
    Except String Analysis × List Event :=
  let evs := [Event.classifyCall input]
  match env.classify input ctx with
  | .error e => (.error e, evs)
  | .ok none => (.error "Resposta vazia da OpenAI", evs)
  | .ok (some response) =>
    match env.parseJson response with
    | some a => (.ok a, evs)
    | none => (.ok fallbackAnalysis, evs)

/-- The catch-all result of `processInput` (processor.ts:72-77). -/
def errorResult : NLPResult :=
  { intent := "error"
    entities := {}
    confidence := 0
    response := some "Desculpe, não consegui entender sua solicitação. Pode reformular?" }

/-- `NLPProcessor.processInput` (processor.ts:48): fetch or create the
session context, classify, extract the command, append to the history, and
return the assembled result; any thrown error yields the catch-all result
(keeping the context entry already created). -/
def processInput (env : Env) (m : CtxMap) (input : String)
    (sessionId : String) (now : Nat) : NLPResult × CtxMap × List Event :=
  match getOrCreateContext m sessionId with
  | (ctx, m1) =>
    match analyzeIntent env input ctx with
    | (.error _, evs) => (errorResult, m1, evs)
    | (.ok analysis, evs) =>
      let command := extractCommand env.dateParse now input analysis
      let m2 := updateContext m1 sessionId input (jsOr analysis.response "") now
      ({ intent := analysis.intent
         entities := analysis.entities
         confidence := analysis.confidence
         command := command.command
         parameters := command.parameters
         response := analysis.response }, m2, evs)

/-- `NLPSystem.processAndExecute` (index.ts:21): processes the input with
the NLP processor and then executes the extracted command. -/
def processAndExecute (env : Env) (store : NotionStore) (m : CtxMap)
    (input : String) (sessionId : String) (now : Nat) :
    (NLPResult × CommandResult) × CtxMap × List Event :=
  match processInput env m input sessionId now with
  | (nlpResult, m2, evs1) =>
    match CommandExecutor.executeCommand store nlpResult with
    | (commandResult, evs2) => ((nlpResult, commandResult), m2, evs1 ++ evs2)

/-- Result of `NLPUtils.validateInputLength`. -/
structure ValidationResult where
  valid : Bool
  message : Option String := none
deriving DecidableEq

/-- `NLPUtils.validateInputLength` (index.ts:133). -/
def validateInputLength (input : String) : ValidationResult :=
  if input.length = 0 then
    { valid := false, message := some "Por favor, digite algo para eu poder ajudar." }
  else if input.length > 1000 then
    { valid := false, message := some "Sua mensagem é muito longa. Tente ser mais conciso." }
  else
    { valid := true }

/-- A backing store on which every operation fails. -/
def storeStub : NotionStore :=
  { createTask := fun _ => .error "offline"
    updateTask := fun _ _ => .error "offline"
    completeTask := fun _ => .error "offline"
    searchTasks := fun _ => .error "offline"
    createNote := fun _ => .error "offline"
    searchNotes := fun _ => .error "offline"
    createProject := fun _ => .error "offline"
    getDashboardSummary := fun _ => .error "offline"
    getProductivityStats := fun _ => .error "offline" }

/-- A backing store on which every operation succeeds; searches return no
matches and creations echo the payload back. -/
def storeOk : NotionStore :=
  { createTask := fun d => .ok { id := "t1", title := d.title, status := d.status, priority := d.priority }
    updateTask := fun id _ => .ok { id := id, title := "Atualizada" }
    completeTask := fun id => .ok { id := id, title := "Concluída" }
    searchTasks := fun _ => .ok []
    createNote := fun d => .ok { title := d.title, tags := d.tags }
    searchNotes := fun _ => .ok []
    createProject := fun d => .ok { name := d.name }
    getDashboardSummary := fun _ => .ok {}
    getProductivityStats := fun _ => .ok {} }

/-- A parsed classifier analysis for a plain conversation turn. -/
def convAnalysis : Analysis :=
  { intent := "conversation"
    entities := {}
    confidence := 9/10
    response := some "Olá! Como posso ajudar?" }

/-- An environment whose classifier always answers with a well-formed
conversation analysis. -/
def envConv : Env :=
  { classify := fun _ _ => .ok (some "resp")
    parseJson := fun _ => some convAnalysis
    dateParse := fun _ => none }

/-- An environment whose classifier call always throws a transport error. -/
def envFail : Env :=
  { classify := fun _ _ => .error "network error"
    parseJson := fun _ => none
    dateParse := fun _ => none }

/-- An environment whose classifier returns non-empty output that is not
parseable JSON. -/
def envRaw : Env :=
  { classify := fun _ _ => .ok (some "not json")
    parseJson := fun _ => none
    dateParse := fun _ => none }

/-- A parsed classifier analysis for a create-task turn carrying a title
and a natural-language reply. -/
def ctAnalysis : Analysis :=
  { intent := "create_task"
    entities := { title := some "Relatório" }
    confidence := 9/10
    response := some "Vou criar a tarefa." }

/-- An environment whose classifier always answers with `ctAnalysis`. -/
def envCreate : Env :=
  { classify := fun _ _ => .ok (some "resp")
    parseJson := fun _ => some ctAnalysis
    dateParse := fun _ => none }

/-- A classifier analysis for a create-note turn with no entities. -/
def noteAnalysis : Analysis :=
  { intent := "create_note"
    entities := {}
    confidence := 1
    response := none }

/-- A string with positive length is not the empty string. -/
theorem str_ne_empty (a : String) (h : 0 < a.length) : a ≠ "" := by
  intro hc
  rw [hc] at h
  exact absurd h (by decide)

/-- Appending on the right preserves positive length. -/
theorem len_append_pos_left (a b : String) (h : 0 < a.length) :
    0 < (a ++ b).length := by
  rw [String.length_append]
  omega

/-- An append whose left part has positive length is not empty. -/
theorem str_prefix_ne_empty (a b : String) (h : 0 < a.length) : a ++ b ≠ "" :=
  str_ne_empty _ (len_append_pos_left a b h)

/-- A three-part append whose first part has positive length is not empty. -/
theorem str_prefix3_ne_empty (a b c : String) (h : 0 < a.length) :
    a ++ b ++ c ≠ "" :=
  str_prefix_ne_empty _ _ (len_append_pos_left a b h)

/-- The JavaScript string default `o || d` is non-empty whenever `d` is. -/
theorem jsOr_ne_empty (o : Option String) (d : String) (hd : d ≠ "") :
    jsOr o d ≠ "" := by
  match o with
  | none => exact hd
  | some s =>
    simp only [jsOr]
    split
    · exact hd
    · assumption

/-- The envelope invariant of the spec: the message is non-empty and a
failure carries a diagnostic. -/
def goodResult (c : CommandResult) : Prop :=
  c.message ≠ "" ∧ (c.success = false → c.error.isSome = true)

theorem createTask_good (store : NotionStore) (p : Parameters) :
    goodResult (CommandExecutor.createTask store p).1 := by
  simp only [CommandExecutor.createTask]
  split
  · exact ⟨str_prefix3_ne_empty _ _ _ (by decide), fun h => Bool.noConfusion h⟩
  · exact ⟨(by decide : ("Não foi possível criar a tarefa." : String) ≠ ""), fun _ => rfl⟩

theorem doUpdateTask_good (store : NotionStore) (taskId : String)
    (u : Option Updates) (evs : List Event) :
    goodResult (CommandExecutor.doUpdateTask store taskId u evs).1 := by
  simp only [CommandExecutor.doUpdateTask]
  split
  · exact ⟨str_prefix3_ne_empty _ _ _ (by decide), fun h => Bool.noConfusion h⟩
  · exact ⟨(by decide : ("Não foi possível atualizar a tarefa." : String) ≠ ""), fun _ => rfl⟩

theorem updateTask_good (store : NotionStore) (p : Parameters) :
    goodResult (CommandExecutor.updateTask store p).1 := by
  simp only [CommandExecutor.updateTask]
  split
  · exact ⟨(by decide : ("É necessário especificar qual tarefa atualizar." : String) ≠ ""),
      fun _ => rfl⟩
  · split
    · exact doUpdateTask_good _ _ _ _
    · split
      · exact ⟨(by decide : ("Não foi possível atualizar a tarefa." : String) ≠ ""),
          fun _ => rfl⟩
      · exact ⟨str_prefix3_ne_empty _ _ _ (by decide), fun _ => rfl⟩
      · exact doUpdateTask_good _ _ _ _

theorem doCompleteTask_good (store : NotionStore) (taskId : String)
    (evs : List Event) :
    goodResult (CommandExecutor.doCompleteTask store taskId evs).1 := by
  simp only [CommandExecutor.doCompleteTask]
  split
  · exact ⟨str_prefix3_ne_empty _ _ _ (by decide), fun h => Bool.noConfusion h⟩
  · exact ⟨(by decide : ("Não foi possível completar a tarefa." : String) ≠ ""), fun _ => rfl⟩

theorem completeTask_good (store : NotionStore) (p : Parameters) :
    goodResult (CommandExecutor.completeTask store p).1 := by
  simp only [CommandExecutor.completeTask]
  split
  · exact ⟨(by decide : ("É necessário especificar qual tarefa completar." : String) ≠ ""),
      fun _ => rfl⟩
  · split
    · exact doCompleteTask_good _ _ _
    · split
      · exact ⟨(by decide : ("Não foi possível completar a tarefa." : String) ≠ ""),
          fun _ => rfl⟩
      · exact ⟨str_prefix3_ne_empty _ _ _ (by decide), fun _ => rfl⟩
      · exact doCompleteTask_good _ _ _

theorem listTasks_good (store : NotionStore) (p : Parameters) :
    goodResult (CommandExecutor.listTasks store p).1 := by
  simp only [CommandExecutor.listTasks]
  split
  · exact ⟨(by decide : ("Não foi possível listar as tarefas." : String) ≠ ""), fun _ => rfl⟩
  · split
    · exact ⟨(by decide :
        ("Nenhuma tarefa encontrada com os filtros especificados." : String) ≠ ""),
        fun h => Bool.noConfusion h⟩
    · refine ⟨?_, fun h => Bool.noConfusion h⟩
      apply str_ne_empty
      repeat apply len_append_pos_left
      decide

theorem createNote_good (store : NotionStore) (p : Parameters) :
    goodResult (CommandExecutor.createNote store p).1 := by
  simp only [CommandExecutor.createNote]
  split
  · exact ⟨str_prefix3_ne_empty _ _ _ (by decide), fun h => Bool.noConfusion h⟩
  · exact ⟨(by decide : ("Não foi possível criar a nota." : String) ≠ ""), fun _ => rfl⟩

theorem searchNotes_good (store : NotionStore) (p : Parameters) :
    goodResult (CommandExecutor.searchNotes store p).1 := by
  simp only [CommandExecutor.searchNotes]
  split
  · exact ⟨(by decide : ("Não foi possível buscar as notas." : String) ≠ ""), fun _ => rfl⟩
  · split
    · exact ⟨(by decide :
        ("Nenhuma nota encontrada com os critérios especificados." : String) ≠ ""),
        fun h => Bool.noConfusion h⟩
    · refine ⟨?_, fun h => Bool.noConfusion h⟩
      apply str_ne_empty
      repeat apply len_append_pos_left
      decide

theorem createProject_good (store : NotionStore) (p : Parameters) :
    goodResult (CommandExecutor.createProject store p).1 := by
  simp only [CommandExecutor.createProject]
  split
  · exact ⟨str_prefix3_ne_empty _ _ _ (by decide), fun h => Bool.noConfusion h⟩
  · exact ⟨(by decide : ("Não foi possível criar o projeto." : String) ≠ ""), fun _ => rfl⟩

theorem getDashboard_good (store : NotionStore) :
    goodResult (CommandExecutor.getDashboard store).1 := by
  simp only [CommandExecutor.getDashboard]
  split
  · exact ⟨(by decide : ("Não foi possível obter o dashboard." : String) ≠ ""), fun _ => rfl⟩
  · refine ⟨?_, fun h => Bool.noConfusion h⟩
    simp only [CommandExecutor.dashboardMessage]
    apply str_ne_empty
    repeat apply len_append_pos_left
    decide

theorem getAnalytics_good (store : NotionStore) (p : Parameters) :
    goodResult (CommandExecutor.getAnalytics store p).1 := by
  simp only [CommandExecutor.getAnalytics]
  split
  · exact ⟨(by decide : ("Não foi possível obter as estatísticas." : String) ≠ ""), fun _ => rfl⟩
  · refine ⟨?_, fun h => Bool.noConfusion h⟩
    simp only [CommandExecutor.analyticsMessage]
    apply str_ne_empty
    repeat apply len_append_pos_left
    decide

/-- C2: `executeCommand` is total: for every `NLPResult`, including those
whose execution makes a backing-store call throw, it returns a
`CommandResult` whose message is a non-empty string, and whenever
`success` is `false` the `error` field is set. -/
theorem C2_executeCommand_total (store : NotionStore) (r : NLPResult) :
    (CommandExecutor.executeCommand store r).1.message ≠ "" ∧
    ((CommandExecutor.executeCommand store r).1.success = false →
      ((CommandExecutor.executeCommand store r).1.error).isSome = true) := by
  have hgood : goodResult (CommandExecutor.executeCommand store r).1 := by
    simp only [CommandExecutor.executeCommand]
    split
    · exact ⟨jsOr_ne_empty _ _ (by decide), fun h => Bool.noConfusion h⟩
    · split
      · exact createTask_good _ _
      · exact ⟨(by decide : ("Não foi possível criar a tarefa." : String) ≠ ""), fun _ => rfl⟩
      · exact updateTask_good _ _
      · exact ⟨(by decide : ("Não foi possível atualizar a tarefa." : String) ≠ ""), fun _ => rfl⟩
      · exact completeTask_good _ _
      · exact ⟨(by decide : ("Não foi possível completar a tarefa." : String) ≠ ""), fun _ => rfl⟩
      · exact listTasks_good _ _
      · exact ⟨(by decide : ("Não foi possível listar as tarefas." : String) ≠ ""), fun _ => rfl⟩
      · exact createNote_good _ _
      · exact ⟨(by decide : ("Não foi possível criar a nota." : String) ≠ ""), fun _ => rfl⟩
      · exact searchNotes_good _ _
      · exact ⟨(by decide : ("Não foi possível buscar as notas." : String) ≠ ""), fun _ => rfl⟩
      · exact createProject_good _ _
      · exact ⟨(by decide : ("Não foi possível criar o projeto." : String) ≠ ""), fun _ => rfl⟩
      · exact getDashboard_good _
      · exact getAnalytics_good _ _
      · exact ⟨(by decide : ("Não foi possível obter as estatísticas." : String) ≠ ""), fun _ => rfl⟩
      · exact ⟨(by decide : ("Comando não reconhecido." : String) ≠ ""), fun _ => rfl⟩
  exact hgood

/-- C2 witness: the totality invariant instantiated at a failing store and
a concrete create-task result. -/
theorem C2_witness :
    (CommandExecutor.executeCommand storeStub
        { intent := "create_task"
          command := some { type := "create", target := "task", action := "create_task" }
          parameters := some {} }).1.message ≠ "" ∧
    ((CommandExecutor.executeCommand storeStub
        { intent := "create_task"
          command := some { type := "create", target := "task", action := "create_task" }
          parameters := some {} }).1.success = false →
      ((CommandExecutor.executeCommand storeStub
        { intent := "create_task"
          command := some { type := "create", target := "task", action := "create_task" }
          parameters := some {} }).1.error).isSome = true) :=
  C2_executeCommand_total storeStub
    { intent := "create_task"
      command := some { type := "create", target := "task", action := "create_task" }
      parameters := some {} }

/-- `processInput` records exactly one classifier invocation, on the raw
input, whatever the classifier does. -/
theorem processInput_events (env : Env) (m : CtxMap) (input sid : String) (now : Nat) :
    (processInput env m input sid now).2.2 = [Event.classifyCall input] := by
  rcases hg : getOrCreateContext m sid with ⟨ctx, m1⟩
  cases hc : env.classify input ctx with
  | error e => simp [processInput, analyzeIntent, hg, hc]
  | ok o =>
    cases o with
    | none => simp [processInput, analyzeIntent, hg, hc]
    | some resp =>
      cases hp : env.parseJson resp with
      | none => simp [processInput, analyzeIntent, hg, hc, hp]
      | some a => simp [processInput, analyzeIntent, hg, hc, hp]

/-- C1 counterexample: on the empty input, `processAndExecute` does invoke
the classifier, and the returned message is not the length-guidance
message (with a classifier that answers a plain conversation reply). -/
theorem C1_counterexample :
    Event.classifyCall "" ∈ (processAndExecute envConv storeStub [] "" "default" 0).2.2 ∧
    ¬ ((processAndExecute envConv storeStub [] "" "default" 0).1.2.message =
        "Por favor, digite algo para eu poder ajudar.") := by decide

/-- C1 (amended): `processAndExecute` performs no length validation: it
invokes the classifier on every input, of any length. The length-guidance
and truncation messages exist only in `NLPUtils.validateInputLength`,
which `processAndExecute` never calls: that utility returns invalid with
the length-guidance message for length 0 and invalid with the truncation
message for length over 1000. -/
theorem C1_no_length_shortcircuit :
    (∀ (env : Env) (store : NotionStore) (m : CtxMap) (input sid : String) (now : Nat),
        Event.classifyCall input ∈ (processAndExecute env store m input sid now).2.2) ∧
    validateInputLength "" =
      { valid := false, message := some "Por favor, digite algo para eu poder ajudar." } ∧
    (∀ s : String, s.length > 1000 →
        validateInputLength s =
          { valid := false, message := some "Sua mensagem é muito longa. Tente ser mais conciso." }) := by
  refine ⟨?_, by decide, ?_⟩
  · intro env store m input sid now
    rcases hpi : processInput env m input sid now with ⟨nlp, m2, evs1⟩
    rcases hec : CommandExecutor.executeCommand store nlp with ⟨cr, evs2⟩
    have h1 : evs1 = [Event.classifyCall input] := by
      have h := processInput_events env m input sid now
      rw [hpi] at h
      exact h
    simp only [processAndExecute, hpi, hec, h1]
    simp
  · intro s hs
    simp only [validateInputLength]
    rw [if_neg (by omega), if_pos (by omega)]

/-- C1 witness: the amended statement instantiated at a short input and at
a concrete 1001-character input. -/
theorem C1_witness :
    Event.classifyCall "oi" ∈ (processAndExecute envConv storeStub [] "oi" "default" 0).2.2 ∧
    validateInputLength (String.mk (List.replicate 1001 'a')) =
      { valid := false, message := some "Sua mensagem é muito longa. Tente ser mais conciso." } :=
  ⟨C1_no_length_shortcircuit.1 envConv storeStub [] "oi" "default" 0,
   C1_no_length_shortcircuit.2.2 _ (by
     have h : (String.mk (List.replicate 1001 'a')).length = 1001 :=
       List.length_replicate 1001 'a'
     omega)⟩

/-- The fixed enumerated intent set of the spec. -/
def fixedIntents : List String :=
  ["create_task", "update_task", "complete_task", "list_tasks", "create_note",
   "search_notes", "create_project", "dashboard", "analytics", "help", "conversation"]

/-- C3 counterexample: when the classifier call throws a transport error,
`processInput` returns the intent "error", which is outside the fixed
enumerated intent set. -/
theorem C3_counterexample :
    ((processInput envFail [] "oi" "default" 0).1.intent ∈ fixedIntents) = False :=
  eq_false (by decide)

/-- C3 (amended): provided every analysis the classifier produces carries
an intent in the fixed enumerated set, every `NLPResult` returned by
`processInput` has an intent in that set extended with "error": transport
failure yields "error", unparseable output yields "conversation", and
otherwise the classifier intent is passed through. -/
theorem C3_intent_enumeration (env : Env) (m : CtxMap) (input sid : String) (now : Nat)
    (h : ∀ s a, env.parseJson s = some a → a.intent ∈ fixedIntents) :
    (processInput env m input sid now).1.intent ∈ "error" :: fixedIntents := by
  rcases hg : getOrCreateContext m sid with ⟨ctx, m1⟩
  cases hc : env.classify input ctx with
  | error e => simp [processInput, analyzeIntent, hg, hc, errorResult]
  | ok o =>
    cases o with
    | none => simp [processInput, analyzeIntent, hg, hc, errorResult]
    | some resp =>
      cases hp : env.parseJson resp with
      | none =>
        simp only [processInput, analyzeIntent, hg, hc, hp]
        decide
      | some a =>
        have ha := h resp a hp
        simp only [processInput, analyzeIntent, hg, hc, hp]
        exact List.mem_cons_of_mem _ ha

/-- C3 witness: the amended statement at a classifier that always returns
a well-formed conversation analysis. -/
theorem C3_witness :
    (processInput envConv [] "oi" "default" 0).1.intent ∈ "error" :: fixedIntents :=
  C3_intent_enumeration envConv [] "oi" "default" 0 (fun s a hsa => by
    have he : convAnalysis = a := Option.some.inj hsa
    rw [← he]
    decide)

/-- Dispatch never touches the session store: the context map after
`processAndExecute` is the one `processInput` produced. -/
theorem processAndExecute_state (env : Env) (store : NotionStore) (m : CtxMap)
    (input sid : String) (now : Nat) :
    (processAndExecute env store m input sid now).2.1 =
      (processInput env m input sid now).2.1 := by
  rcases hpi : processInput env m input sid now with ⟨nlp, m2, evs1⟩
  rcases hec : CommandExecutor.executeCommand store nlp with ⟨cr, evs2⟩
  simp [processAndExecute, hpi, hec]

/-- C4 counterexample: for a create-task turn the single appended history
entry holds the classifier reply, not the dispatch result message. -/
theorem C4_counterexample :
    ((mapGet (processAndExecute envCreate storeOk [] "criar tarefa" "s1" 5).2.1 "s1").map
          (fun c => c.history.map (fun h => h.output)) =
        some [(processAndExecute envCreate storeOk [] "criar tarefa" "s1" 5).1.2.message]) = False :=
  eq_false (by decide)

/-- C4 (amended): for every handled input whose classification succeeds,
the history entry appended to the session context has its output equal to
the classifier reply (empty string when absent), and the append happens
inside `processInput`, before `executeCommand` dispatches the command;
dispatch leaves the session store untouched. -/
theorem C4_append_classifier_reply (env : Env) (store : NotionStore) (m : CtxMap)
    (input sid : String) (now : Nat) (a : Analysis)
    (h : (analyzeIntent env input (getOrCreateContext m sid).1).1 = .ok a) :
    (processInput env m input sid now).2.1 =
      updateContext (getOrCreateContext m sid).2 sid input (jsOr a.response "") now ∧
    (processAndExecute env store m input sid now).2.1 =
      (processInput env m input sid now).2.1 := by
  refine ⟨?_, processAndExecute_state env store m input sid now⟩
  rcases hg : getOrCreateContext m sid with ⟨ctx, m1⟩
  rw [hg] at h
  rcases hai : analyzeIntent env input ctx with ⟨res, evs⟩
  rw [hai] at h
  simp only at h
  subst h
  simp [processInput, hg, hai]

/-- C4 witness: the amended statement at a concrete create-task run. -/
theorem C4_witness :
    (processInput envCreate [] "oi" "s1" 0).2.1 =
      updateContext (getOrCreateContext ([] : CtxMap) "s1").2 "s1" "oi"
        (jsOr ctAnalysis.response "") 0 ∧
    (processAndExecute envCreate storeOk [] "oi" "s1" 0).2.1 =
      (processInput envCreate [] "oi" "s1" 0).2.1 :=
  C4_append_classifier_reply envCreate storeOk [] "oi" "s1" 0 ctAnalysis rfl

/-- The last `n` elements of a list in order. -/
def lastN {α : Type} (n : Nat) (l : List α) : List α :=
  l.drop (l.length - n)

/-- `pushBounded` always equals taking the last 10 of the extended list. -/
theorem pushBounded_eq (h : List HistoryEntry) (e : HistoryEntry) :
    pushBounded h e = (h ++ [e]).drop ((h ++ [e]).length - 10) := by
  simp only [pushBounded]
  split
  · rfl
  · rename_i hc
    rw [Nat.sub_eq_zero_of_le (by omega), List.drop_zero]

/-- The history bound: after any push the history has at most 10 entries. -/
theorem pushBounded_length_le (h : List HistoryEntry) (e : HistoryEntry) :
    (pushBounded h e).length ≤ 10 := by
  simp only [pushBounded]
  split
  · rename_i hc
    rw [List.length_drop]
    omega
  · rename_i hc
    omega

/-- Dropping a prefix that still leaves at least `n` elements does not
change the last `n` elements of an extended list. -/
theorem lastN_drop_append {α : Type} (n k : Nat) (l es : List α)
    (hk : k ≤ l.length) (hn : n ≤ l.length - k) :
    lastN n (l.drop k ++ es) = lastN n (l ++ es) := by
  simp only [lastN]
  rw [← List.drop_append_of_le_length hk, List.drop_drop]
  congr 1
  rw [List.length_append, List.length_drop, List.length_append]
  omega

/-- Folding bounded pushes from a bounded start yields the last 10 of the
whole sequence. -/
theorem foldl_pushBounded (es : List HistoryEntry) :
    ∀ h : List HistoryEntry, h.length ≤ 10 →
      List.foldl pushBounded h es = lastN 10 (h ++ es) := by
  induction es with
  | nil =>
    intro h hh
    simp [lastN, Nat.sub_eq_zero_of_le hh]
  | cons e es ih =>
    intro h hh
    rw [List.foldl_cons, ih (pushBounded h e) (pushBounded_length_le h e)]
    by_cases hlen : (h ++ [e]).length ≤ 10
    · have hpe : pushBounded h e = h ++ [e] := by
        rw [pushBounded_eq, Nat.sub_eq_zero_of_le hlen, List.drop_zero]
      rw [hpe, List.append_assoc]
      rfl
    · have hl : (h ++ [e]).length = h.length + 1 := by simp
      rw [pushBounded_eq, lastN_drop_append 10 _ _ es (by omega) (by omega),
        List.append_assoc]
      rfl

/-- One history append operation: session id, input, output, timestamp. -/
structure AppendOp where
  sid : String
  input : String
  output : String
  now : Nat
deriving DecidableEq

/-- The history entry an append operation creates. -/
def AppendOp.entry (op : AppendOp) : HistoryEntry :=
  { input := op.input, output := op.output, timestamp := op.now }

/-- A sequence of `updateContext` calls. -/
def appendAll (m : CtxMap) : List AppendOp → CtxMap
  | [] => m
  | op :: ops => appendAll (updateContext m op.sid op.input op.output op.now) ops

/-- The stored history of a session (empty when the session has no
context). -/
def historyOf (m : CtxMap) (sid : String) : List HistoryEntry :=
  match mapGet m sid with
  | some c => c.history
  | none => []

theorem mapGet_mapSet_self (m : CtxMap) (sid : String) (c : ConversationContext) :
    mapGet (mapSet m sid c) sid = some c := by
  induction m with
  | nil => simp [mapSet, mapGet]
  | cons p rest ih =>
    simp only [mapSet]
    split
    · simp [mapGet]
    · rename_i hne
      simp [mapGet, hne, ih]

theorem mapGet_mapSet_ne (m : CtxMap) (sid sid' : String) (c : ConversationContext)
    (hne : sid' ≠ sid) :
    mapGet (mapSet m sid c) sid' = mapGet m sid' := by
  induction m with
  | nil => simp [mapSet, mapGet, Ne.symm hne]
  | cons p rest ih =>
    simp only [mapSet]
    split
    · rename_i heq
      simp [mapGet, heq, Ne.symm hne]
    · simp [mapGet, ih]

theorem getOrCreate_history (m : CtxMap) (sid : String) :
    (getOrCreateContext m sid).1.history = historyOf m sid := by
  cases h : mapGet m sid <;> simp [getOrCreateContext, historyOf, h]

theorem historyOf_updateContext_self (m : CtxMap) (sid i o : String) (t : Nat) :
    historyOf (updateContext m sid i o t) sid =
      pushBounded (historyOf m sid) { input := i, output := o, timestamp := t } := by
  simp only [updateContext]
  cases hG : mapGet m sid with
  | some c => simp [getOrCreateContext, hG, historyOf, mapGet_mapSet_self]
  | none => simp [getOrCreateContext, hG, historyOf, mapGet_mapSet_self]

theorem historyOf_updateContext_ne (m : CtxMap) (sid sid' i o : String) (t : Nat)
    (hne : sid' ≠ sid) :
    historyOf (updateContext m sid i o t) sid' = historyOf m sid' := by
  simp only [updateContext]
  cases hG : mapGet m sid with
  | some c => simp [getOrCreateContext, hG, historyOf, mapGet_mapSet_ne _ _ _ _ hne]
  | none => simp [getOrCreateContext, hG, historyOf, mapGet_mapSet_ne _ _ _ _ hne]

/-- The history a session holds after a sequence of appends is the fold of
bounded pushes over the appends addressed to that session. -/
theorem appendAll_historyOf (ops : List AppendOp) :
    ∀ (m : CtxMap) (sid : String),
      historyOf (appendAll m ops) sid =
        List.foldl pushBounded (historyOf m sid)
          ((ops.filter (fun op => op.sid == sid)).map AppendOp.entry) := by
  induction ops with
  | nil => intro m sid; simp [appendAll]
  | cons op ops ih =>
    intro m sid
    simp only [appendAll]
    rw [ih]
    by_cases hs : op.sid = sid
    · subst hs
      rw [historyOf_updateContext_self]
      simp [List.filter_cons, AppendOp.entry]
    · rw [historyOf_updateContext_ne _ _ _ _ _ _ (fun h => hs h.symm)]
      simp [List.filter_cons, hs]

/-- C5: for every session, after any sequence of appended interactions the
context history holds at most 10 entries, exactly the most recently
appended entries for that session in their original order; with 15
appends to one session the history length is exactly 10. -/
theorem C5_history_bound (ops : List AppendOp) (sid : String) :
    historyOf (appendAll [] ops) sid =
      lastN 10 ((ops.filter (fun op => op.sid == sid)).map AppendOp.entry) ∧
    (historyOf (appendAll [] ops) sid).length ≤ 10 ∧
    ((ops.filter (fun op => op.sid == sid)).length = 15 →
      (historyOf (appendAll [] ops) sid).length = 10) := by
  have h1 : historyOf (appendAll [] ops) sid =
      lastN 10 ((ops.filter (fun op => op.sid == sid)).map AppendOp.entry) := by
    rw [appendAll_historyOf]
    have h0 : historyOf [] sid = [] := rfl
    rw [h0]
    have h2 := foldl_pushBounded
      ((ops.filter (fun op => op.sid == sid)).map AppendOp.entry) [] (by simp)
    simpa using h2
  refine ⟨h1, ?_, ?_⟩
  · rw [h1]
    simp only [lastN, List.length_drop]
    omega
  · intro h15
    rw [h1]
    simp only [lastN, List.length_drop, List.length_map, h15]

/-- Fifteen appends to one session. -/
def ops15 : List AppendOp :=
  (List.range 15).map (fun i => { sid := "s", input := toString i, output := "out", now := i })

/-- C5 witness: with the 15 concrete appends of `ops15` the stored history
length is exactly 10. -/
theorem C5_witness :
    (historyOf (appendAll [] ops15) "s").length = 10 :=
  (C5_history_bound ops15 "s").2.2 (by decide)

theorem updateTask_notfound (store : NotionStore) (p : Parameters) (t : String)
    (ht : p.title = some t) (htne : t ≠ "") (hid : truthy p.taskId = false)
    (hse : store.searchTasks { title := some t } = .ok []) :
    CommandExecutor.updateTask store p =
      ({ success := false
         message := "Tarefa \"" ++ t ++ "\" não encontrada."
         data := none
         error := some "Tarefa não encontrada" },
       [Event.store (.searchTasksCall { title := some t })]) := by
  have htr : truthy (some t) = true := by simp [truthy, htne]
  simp [CommandExecutor.updateTask, hid, htr, ht, hse]

theorem completeTask_notfound (store : NotionStore) (p : Parameters) (t : String)
    (ht : p.title = some t) (htne : t ≠ "") (hid : truthy p.taskId = false)
    (hse : store.searchTasks { title := some t } = .ok []) :
    CommandExecutor.completeTask store p =
      ({ success := false
         message := "Tarefa \"" ++ t ++ "\" não encontrada."
         data := none
         error := some "Tarefa não encontrada" },
       [Event.store (.searchTasksCall { title := some t })]) := by
  have htr : truthy (some t) = true := by simp [truthy, htne]
  simp [CommandExecutor.completeTask, hid, htr, ht, hse]

theorem updateTask_found_trace (store : NotionStore) (p : Parameters) (t : String)
    (t0 : Task) (ts : List Task)
    (ht : p.title = some t) (htne : t ≠ "") (hid : truthy p.taskId = false)
    (hse : store.searchTasks { title := some t } = .ok (t0 :: ts)) :
    (CommandExecutor.updateTask store p).2 =
      [Event.store (.searchTasksCall { title := some t }),
       Event.store (.updateTaskCall t0.id p.updates)] := by
  have htr : truthy (some t) = true := by simp [truthy, htne]
  cases hres : store.updateTask t0.id p.updates <;>
    simp [CommandExecutor.updateTask, CommandExecutor.doUpdateTask, hid, htr, ht, hse, hres]

theorem completeTask_found_trace (store : NotionStore) (p : Parameters) (t : String)
    (t0 : Task) (ts : List Task)
    (ht : p.title = some t) (htne : t ≠ "") (hid : truthy p.taskId = false)
    (hse : store.searchTasks { title := some t } = .ok (t0 :: ts)) :
    (CommandExecutor.completeTask store p).2 =
      [Event.store (.searchTasksCall { title := some t }),
       Event.store (.completeTaskCall t0.id)] := by
  have htr : truthy (some t) = true := by simp [truthy, htne]
  cases hres : store.completeTask t0.id <;>
    simp [CommandExecutor.completeTask, CommandExecutor.doCompleteTask, hid, htr, ht, hse, hres]

/-- C6: for update and complete commands carrying a title but no task id,
a search returning zero tasks yields a not-found failure whose trace is
the search call alone (no mutation), and a non-empty search result makes
the mutation use the id of its first task. -/
theorem C6_resolve_by_title (store : NotionStore) (p : Parameters) (t : String)
    (ht : p.title = some t) (htne : t ≠ "") (hid : truthy p.taskId = false) :
    (store.searchTasks { title := some t } = .ok [] →
      (CommandExecutor.updateTask store p).1.success = false ∧
      (CommandExecutor.updateTask store p).1.message =
        "Tarefa \"" ++ t ++ "\" não encontrada." ∧
      (CommandExecutor.updateTask store p).2 =
        [Event.store (.searchTasksCall { title := some t })] ∧
      (CommandExecutor.completeTask store p).1.success = false ∧
      (CommandExecutor.completeTask store p).1.message =
        "Tarefa \"" ++ t ++ "\" não encontrada." ∧
      (CommandExecutor.completeTask store p).2 =
        [Event.store (.searchTasksCall { title := some t })]) ∧
    (∀ (t0 : Task) (ts : List Task),
      store.searchTasks { title := some t } = .ok (t0 :: ts) →
      (CommandExecutor.updateTask store p).2 =
        [Event.store (.searchTasksCall { title := some t }),
         Event.store (.updateTaskCall t0.id p.updates)] ∧
      (CommandExecutor.completeTask store p).2 =
        [Event.store (.searchTasksCall { title := some t }),
         Event.store (.completeTaskCall t0.id)]) := by
  constructor
  · intro hse
    rw [updateTask_notfound store p t ht htne hid hse,
      completeTask_notfound store p t ht htne hid hse]
    exact ⟨rfl, rfl, rfl, rfl, rfl, rfl⟩
  · intro t0 ts hse
    exact ⟨updateTask_found_trace store p t t0 ts ht htne hid hse,
      completeTask_found_trace store p t t0 ts ht htne hid hse⟩

/-- C6 witness: completing the task "Reunião X" by title against a store
with no matching task fails with the not-found message and a trace holding
only the search. -/
theorem C6_witness :
    (CommandExecutor.completeTask storeOk { title := some "Reunião X" }).1.success = false ∧
    (CommandExecutor.completeTask storeOk { title := some "Reunião X" }).1.message =
      "Tarefa \"" ++ "Reunião X" ++ "\" não encontrada." ∧
    (CommandExecutor.completeTask storeOk { title := some "Reunião X" }).2 =
      [Event.store (.searchTasksCall { title := some "Reunião X" })] := by
  have h := (C6_resolve_by_title storeOk { title := some "Reunião X" } "Reunião X"
    rfl (by decide) rfl).1 rfl
  exact ⟨h.2.2.2.1, h.2.2.2.2.1, h.2.2.2.2.2⟩

theorem jsOr_of_truthy_some (x d : String) (hx : x ≠ "") :
    jsOr (some x) d = x := by
  simp [jsOr, hx]

theorem jsOr_of_not_truthy (o : Option String) (d : String)
    (h : truthy o = false) :
    jsOr o d = d := by
  cases o with
  | none => rfl
  | some s =>
    by_cases hs : s = "" <;> simp [jsOr, truthy, hs] at *

/-- The derived title is never the empty string. -/
theorem extractTitleFromInput_ne_empty (input : String) :
    extractTitleFromInput input ≠ "" := by
  simp only [extractTitleFromInput]
  split
  · decide
  · assumption

/-- C7 counterexample: for a create-note turn with no title entity and
empty raw input, the extracted title is the task default "Nova tarefa",
not the note default "Nova nota" the claim states. -/
theorem C7_counterexample :
    ((extractCommand (fun _ => none) 0 "" noteAnalysis).parameters.map
          (fun p => p.title) = some (some "Nova nota")) = False :=
  eq_false (by decide)

/-- C7 (amended): for create_task and create_note a present non-empty
title entity is copied verbatim and a missing one falls back to the
derivation from the raw input, whose default is "Nova tarefa" for notes as
well as tasks, so the title is never empty; for create_project the name is
the title entity or else the project_name entity, with no raw-input
derivation and no default at extraction. -/
theorem C7_title_extraction (dp : String → Option Nat) (now : Nat)
    (input : String) (a : Analysis) :
    extractTitleFromInput input ≠ "" ∧
    ((a.intent = "create_task" ∨ a.intent = "create_note") →
      ∃ p, (extractCommand dp now input a).parameters = some p ∧
        p.title = some (jsOr a.entities.title (extractTitleFromInput input)) ∧
        (∀ x, a.entities.title = some x → x ≠ "" → p.title = some x) ∧
        (truthy a.entities.title = false →
          p.title = some (extractTitleFromInput input))) ∧
    (a.intent = "create_project" →
      ∃ p, (extractCommand dp now input a).parameters = some p ∧
        p.name = jsOrOpt a.entities.title a.entities.project_name) := by
  refine ⟨extractTitleFromInput_ne_empty input, ?_, ?_⟩
  · intro hi
    cases hi with
    | inl h =>
      simp only [extractCommand, h]
      refine ⟨_, rfl, rfl, ?_, ?_⟩
      · intro x hx hxne
        rw [hx, jsOr_of_truthy_some x _ hxne]
      · intro hnt
        rw [jsOr_of_not_truthy _ _ hnt]
    | inr h =>
      simp only [extractCommand, h]
      refine ⟨_, rfl, rfl, ?_, ?_⟩
      · intro x hx hxne
        rw [hx, jsOr_of_truthy_some x _ hxne]
      · intro hnt
        rw [jsOr_of_not_truthy _ _ hnt]
  · intro h
    simp only [extractCommand, h]
    exact ⟨_, rfl, rfl⟩

/-- C7 witness: the amended statement at a create-note turn with no title
entity and empty input. -/
theorem C7_witness :
    ∃ p, (extractCommand (fun _ => none) 0 "" noteAnalysis).parameters = some p ∧
      p.title = some (jsOr noteAnalysis.entities.title (extractTitleFromInput "")) ∧
      (∀ x, noteAnalysis.entities.title = some x → x ≠ "" → p.title = some x) ∧
      (truthy noteAnalysis.entities.title = false →
        p.title = some (extractTitleFromInput "")) :=
  (C7_title_extraction (fun _ => none) 0 "" noteAnalysis).2.1 (Or.inr rfl)

/-- C8: on any classifier completion that is non-empty but not parseable,
`analyzeIntent` returns (without raising) the fail-soft analysis: intent
"conversation", confidence one half, empty entities, the generic
clarifying reply. -/
theorem C8_fail_soft (env : Env) (input : String) (ctx : ConversationContext)
    (resp : String) (hc : env.classify input ctx = .ok (some resp))
    (hp : env.parseJson resp = none) :
    (analyzeIntent env input ctx).1 = .ok fallbackAnalysis ∧
    fallbackAnalysis.intent = "conversation" ∧
    fallbackAnalysis.confidence = 1/2 ∧
    fallbackAnalysis.entities = {} ∧
    fallbackAnalysis.response =
      some "Entendi sua mensagem, mas preciso de mais clareza para ajudar melhor." := by
  refine ⟨?_, rfl, rfl, rfl, rfl⟩
  simp [analyzeIntent, hc, hp]

/-- C8 witness: the fail-soft result at a classifier that answers with
non-JSON text. -/
theorem C8_witness :
    (analyzeIntent envRaw "olá" { sessionId := "s" }).1 = .ok fallbackAnalysis :=
  (C8_fail_soft envRaw "olá" { sessionId := "s" } "not json" rfl rfl).1

/-- C9: every create_task command dispatched by the executor makes exactly
one backing-store createTask call, whose payload carries the caller
defaults: priority "Média" when absent, status always "A fazer", tags
defaulting to the empty list, title defaulting to "Nova tarefa". -/
theorem C9_create_task_defaults (store : NotionStore) (p : Parameters) (r : NLPResult)
    (hc : r.command = some { type := "create", target := "task", action := "create_task" })
    (hp : r.parameters = some p) :
    (CommandExecutor.executeCommand store r).2 =
      [Event.store (.createTaskCall (CommandExecutor.taskDataOf p))] ∧
    (p.priority = none → (CommandExecutor.taskDataOf p).priority = "Média") ∧
    (CommandExecutor.taskDataOf p).status = "A fazer" ∧
    (p.tags = none → (CommandExecutor.taskDataOf p).tags = []) ∧
    (p.title = none → (CommandExecutor.taskDataOf p).title = "Nova tarefa") := by
  refine ⟨?_, ?_, rfl, ?_, ?_⟩
  · have hroute : CommandExecutor.executeCommand store r =
        CommandExecutor.createTask store p := by
      simp [CommandExecutor.executeCommand, hc, hp]
    rw [hroute]
    cases hres : store.createTask (CommandExecutor.taskDataOf p) <;>
      simp [CommandExecutor.createTask, hres]
  · intro h
    simp [CommandExecutor.taskDataOf, h, jsOr]
  · intro h
    simp [CommandExecutor.taskDataOf, h]
  · intro h
    simp [CommandExecutor.taskDataOf, h, jsOr]

/-- C9 witness: the defaults at an empty parameter object dispatched
through the executor. -/
theorem C9_witness :
    (CommandExecutor.executeCommand storeOk
        { intent := "create_task"
          command := some { type := "create", target := "task", action := "create_task" }
          parameters := some {} }).2 =
      [Event.store (.createTaskCall (CommandExecutor.taskDataOf {}))] ∧
    (CommandExecutor.taskDataOf ({} : Parameters)).priority = "Média" ∧
    (CommandExecutor.taskDataOf ({} : Parameters)).status = "A fazer" ∧
    (CommandExecutor.taskDataOf ({} : Parameters)).tags = [] ∧
    (CommandExecutor.taskDataOf ({} : Parameters)).title = "Nova tarefa" := by
  have h := C9_create_task_defaults storeOk {}
    { intent := "create_task"
      command := some { type := "create", target := "task", action := "create_task" }
      parameters := some {} } rfl rfl
  exact ⟨h.1, h.2.1 rfl, h.2.2.1, h.2.2.2.1 rfl, h.2.2.2.2 rfl⟩

/-- The session maps reachable through the processor interface: the empty
map, a processed input (under any classifier behaviour), a cleared
session. -/
inductive Reachable : CtxMap → Prop where
  | init : Reachable []
  | process (env : Env) (input sid : String) (now : Nat) {m : CtxMap} :
      Reachable m → Reachable (processInput env m input sid now).2.1
  | clear (sid : String) {m : CtxMap} :
      Reachable m → Reachable (clearContext m sid)

/-- Every stored session history is within the bound. -/
def boundedMap (m : CtxMap) : Prop :=
  ∀ p ∈ m, p.2.history.length ≤ 10

theorem mem_mapSet (m : CtxMap) (sid : String) (c : ConversationContext)
    (q : String × ConversationContext) (hq : q ∈ mapSet m sid c) :
    q ∈ m ∨ q = (sid, c) := by
  induction m with
  | nil =>
    simp [mapSet] at hq
    exact Or.inr hq
  | cons p rest ih =>
    simp only [mapSet] at hq
    split at hq
    · rcases List.mem_cons.mp hq with h | h
      · exact Or.inr h
      · exact Or.inl (List.mem_cons_of_mem _ h)
    · rcases List.mem_cons.mp hq with h | h
      · exact Or.inl (h ▸ List.mem_cons_self _ _)
      · rcases ih h with h2 | h2
        · exact Or.inl (List.mem_cons_of_mem _ h2)
        · exact Or.inr h2

theorem boundedMap_mapSet (m : CtxMap) (sid : String) (c : ConversationContext)
    (hm : boundedMap m) (hc : c.history.length ≤ 10) :
    boundedMap (mapSet m sid c) := by
  intro q hq
  rcases mem_mapSet m sid c q hq with h | h
  · exact hm q h
  · rw [h]
    exact hc

theorem boundedMap_mapDelete (m : CtxMap) (sid : String) (hm : boundedMap m) :
    boundedMap (mapDelete m sid) := by
  induction m with
  | nil => intro q hq; simp [mapDelete] at hq
  | cons p rest ih =>
    intro q hq
    simp only [mapDelete] at hq
    have hrest : boundedMap rest := fun r hr => hm r (List.mem_cons_of_mem _ hr)
    split at hq
    · exact ih hrest q hq
    · rcases List.mem_cons.mp hq with h | h
      · exact h ▸ hm p (List.mem_cons_self _ _)
      · exact ih hrest q h

theorem boundedMap_getOrCreate (m : CtxMap) (sid : String) (hm : boundedMap m) :
    boundedMap (getOrCreateContext m sid).2 := by
  simp only [getOrCreateContext]
  cases hG : mapGet m sid with
  | some c => exact hm
  | none => exact boundedMap_mapSet m sid _ hm (by simp)

theorem boundedMap_updateContext (m : CtxMap) (sid i o : String) (t : Nat)
    (hm : boundedMap m) :
    boundedMap (updateContext m sid i o t) := by
  simp only [updateContext]
  rcases hg : getOrCreateContext m sid with ⟨c, m1⟩
  have hb1 : boundedMap m1 := by
    have := boundedMap_getOrCreate m sid hm
    rw [hg] at this
    exact this
  exact boundedMap_mapSet m1 sid _ hb1 (pushBounded_length_le _ _)

theorem boundedMap_processInput (env : Env) (m : CtxMap) (input sid : String)
    (now : Nat) (hm : boundedMap m) :
    boundedMap (processInput env m input sid now).2.1 := by
  rcases hg : getOrCreateContext m sid with ⟨ctx, m1⟩
  have hb1 : boundedMap m1 := by
    have := boundedMap_getOrCreate m sid hm
    rw [hg] at this
    exact this
  rcases hai : analyzeIntent env input ctx with ⟨res, evs⟩
  cases res with
  | error e => simpa [processInput, hg, hai] using hb1
  | ok a =>
    have hupd := boundedMap_updateContext m1 sid input (jsOr a.response "") now hb1
    simpa [processInput, hg, hai] using hupd

theorem boundedMap_reachable (m : CtxMap) (h : Reachable m) : boundedMap m := by
  induction h with
  | init => intro q hq; simp at hq
  | process env input sid now hr ih => exact boundedMap_processInput env _ input sid now ih
  | clear sid hr ih => exact boundedMap_mapDelete _ sid ih

theorem sum_histories_le (m : CtxMap) (hm : boundedMap m) :
    (m.map (fun p => p.2.history.length)).sum ≤ 10 * m.length := by
  induction m with
  | nil => simp
  | cons p rest ih =>
    have hp := hm p (List.mem_cons_self _ _)
    have hrest := ih (fun r hr => hm r (List.mem_cons_of_mem _ hr))
    simp only [List.map_cons, List.sum_cons, List.length_cons]
    omega

/-- C10: after any sequence of processed inputs and cleared sessions,
`getStats` reports the number of stored session contexts, the sum of all
stored history lengths, and that sum is at most ten times the session
count. -/
theorem C10_getStats (m : CtxMap) (h : Reachable m) :
    (getStats m).activeSessions = m.length ∧
    (getStats m).totalInteractions = (m.map (fun p => p.2.history.length)).sum ∧
    (getStats m).totalInteractions ≤ 10 * (getStats m).activeSessions :=
  ⟨rfl, rfl, sum_histories_le m (boundedMap_reachable m h)⟩

/-- C10 witness: the stats invariant at the state reached by one processed
input. -/
theorem C10_witness :
    (getStats (processInput envConv [] "oi" "s" 0).2.1).activeSessions =
      (processInput envConv [] "oi" "s" 0).2.1.length ∧
    (getStats (processInput envConv [] "oi" "s" 0).2.1).totalInteractions =
      ((processInput envConv [] "oi" "s" 0).2.1.map (fun p => p.2.history.length)).sum ∧
    (getStats (processInput envConv [] "oi" "s" 0).2.1).totalInteractions ≤
      10 * (getStats (processInput envConv [] "oi" "s" 0).2.1).activeSessions :=
  C10_getStats _ (Reachable.process envConv "oi" "s" 0 Reachable.init)

end NotionNLP
